import Mathlib

/-!
Shallow embedding of the tesla-go client (src/tesla.go).

The repository is a single-file Go HTTP client for the Tesla fleet_status
endpoint.  We embed it as follows:

* JSON documents are modelled by the inductive `Json`; a response body that
  is not syntactically valid JSON is modelled as `Option.none`.
* The behaviour of Go `encoding/json.Unmarshal` on the concrete Go types
  `responseWrapper[fleetStatus]`, `fleetStatus` and `vehicleInfo`
  (src/tesla.go lines 60 to 77) is embedded by the `unmarshal*` functions:
  a missing key leaves the zero value, JSON `null` leaves a non-pointer
  field at its zero value and sets a pointer field to `nil` (here: `none`),
  a duplicate object key is decoded last-wins, and a type mismatch is an
  error.
* The HTTP transport (`*http.Client`) becomes a function from requests to
  `Except Unit HTTPResponse`; a response records its status code, whether
  reading the body succeeded (`io.ReadAll`, line 106), and the body itself.
* `Client.GetFleetStatus` (lines 83 to 133) is embedded in state-passing
  style: it returns the list of requests handed to the transport, the
  client value after the call, and the Go return pair
  `(*FleetStatus, error)` as `Option FleetStatus × Option GetFleetStatusError`.
* `http.NewRequestWithContext` (line 94) can fail when the URL string
  built from the base URL does not parse; on that path the call returns
  an error before the transport is consulted, so the request trace is
  empty.  The model embeds that branch through `urlParseOK`, which
  captures the net/url rejection of ASCII control characters in a URL.
-/

namespace TeslaGo

/-- A JSON value, as produced by parsing a response body.  Numbers are
modelled as integers, which covers every numeric field of the
fleet_status schema (`total_number_of_keys`). -/
inductive Json where
  | null
  | bool (b : Bool)
  | num (n : Int)
  | str (s : String)
  | arr (elems : List Json)
  | obj (fields : List (String × Json))

/-- Last-wins lookup in a JSON object or map literal: Go `encoding/json`
decodes object keys in order, so a later duplicate key overwrites an
earlier one. -/
def lookupLast {α : Type} : List (String × α) → String → Option α
  | [], _ => none
  | (k, v) :: rest, key =>
    match lookupLast rest key with
    | some r => some r
    | none => if k == key then some v else none

/-- Go struct `vehicleInfo` (src/tesla.go lines 64 to 71).  Pointer-typed
fields (`*bool`, `*string`, `*int`) become `Option`. -/
structure vehicleInfo where
  VehicleCommandProtocolRequired : Bool
  SafetyScreenStreamingToggleEnabled : Option Bool
  FirmwareVersion : String
  FleetTelemetryVersion : Option String
  TotalNumberOfKeys : Option Int
  DiscountedDeviceData : Bool
deriving Repr, DecidableEq

/-- The Go zero value of `vehicleInfo`. -/
def vehicleInfoZero : vehicleInfo :=
  { VehicleCommandProtocolRequired := false
    SafetyScreenStreamingToggleEnabled := none
    FirmwareVersion := ""
    FleetTelemetryVersion := none
    TotalNumberOfKeys := none
    DiscountedDeviceData := false }

/-- Go struct `fleetStatus` (src/tesla.go lines 73 to 77).  The Go map
`map[string]vehicleInfo` is embedded as an association list; `lookupLast`
together with a zero-value default reproduces Go map indexing. -/
structure fleetStatus where
  KeyPairedVINs : List String
  UnpairedVINs : List String
  VehicleInfo : List (String × vehicleInfo)
deriving Repr, DecidableEq

/-- The Go zero value of `fleetStatus` (nil slices and a nil map). -/
def fleetStatusZero : fleetStatus :=
  { KeyPairedVINs := [], UnpairedVINs := [], VehicleInfo := [] }

/-- Go generic struct `responseWrapper[A]` (src/tesla.go lines 60 to 62). -/
structure responseWrapper (A : Type) where
  Response : A
deriving Repr, DecidableEq

/-- Go map indexing `m[key]` on `map[string]vehicleInfo`: an absent key (or
a nil map) yields the zero value of the element type (used at
src/tesla.go line 122). -/
def mapIndex (m : List (String × vehicleInfo)) (key : String) : vehicleInfo :=
  (lookupLast m key).getD vehicleInfoZero

/-- `encoding/json` into a Go `bool` field: a missing key or JSON `null`
leaves the zero value `false`; a JSON boolean is taken as is; anything
else is a type error. -/
def unmarshalBoolField : Option Json → Except Unit Bool
  | none => .ok false
  | some .null => .ok false
  | some (.bool b) => .ok b
  | some _ => .error ()

/-- `encoding/json` into a Go `*bool` field: missing or `null` gives a nil
pointer (`none`); a JSON boolean allocates a pointed-to value. -/
def unmarshalOptBoolField : Option Json → Except Unit (Option Bool)
  | none => .ok none
  | some .null => .ok none
  | some (.bool b) => .ok (some b)
  | some _ => .error ()

/-- `encoding/json` into a Go `string` field: missing or `null` leaves the
zero value `""`; a JSON string is taken as is. -/
def unmarshalStringField : Option Json → Except Unit String
  | none => .ok ""
  | some .null => .ok ""
  | some (.str s) => .ok s
  | some _ => .error ()

/-- `encoding/json` into a Go `*string` field. -/
def unmarshalOptStringField : Option Json → Except Unit (Option String)
  | none => .ok none
  | some .null => .ok none
  | some (.str s) => .ok (some s)
  | some _ => .error ()

/-- `encoding/json` into a Go `*int` field. -/
def unmarshalOptIntField : Option Json → Except Unit (Option Int)
  | none => .ok none
  | some .null => .ok none
  | some (.num n) => .ok (some n)
  | some _ => .error ()

/-- `encoding/json` of a list of JSON array elements into Go `string`
elements: a `null` element leaves that element at the zero value `""`. -/
def unmarshalStringElems : List Json → Except Unit (List String)
  | [] => .ok []
  | j :: rest =>
    match j with
    | .str s => (unmarshalStringElems rest).map (s :: ·)
    | .null => (unmarshalStringElems rest).map ("" :: ·)
    | _ => .error ()

/-- `encoding/json` into a Go `[]string` field: missing or `null` gives a
nil slice (length 0); a JSON array decodes elementwise. -/
def unmarshalStringSliceField : Option Json → Except Unit (List String)
  | none => .ok []
  | some .null => .ok []
  | some (.arr xs) => unmarshalStringElems xs
  | some _ => .error ()

/-- `encoding/json` into the Go struct `vehicleInfo`: JSON `null` leaves
the whole struct at its zero value; a JSON object decodes each tagged
field; anything else is a type error. -/
def unmarshalVehicleInfo : Json → Except Unit vehicleInfo
  | .null => .ok vehicleInfoZero
  | .obj fs =>
    match unmarshalBoolField (lookupLast fs "vehicle_command_protocol_required"),
          unmarshalOptBoolField (lookupLast fs "safety_screen_streaming_toggle_enabled"),
          unmarshalStringField (lookupLast fs "firmware_version"),
          unmarshalOptStringField (lookupLast fs "fleet_telemetry_version"),
          unmarshalOptIntField (lookupLast fs "total_number_of_keys"),
          unmarshalBoolField (lookupLast fs "discounted_device_data") with
    | .ok a, .ok b, .ok c, .ok d, .ok e, .ok f => .ok ⟨a, b, c, d, e, f⟩
    | _, _, _, _, _, _ => .error ()
  | _ => .error ()

/-- `encoding/json` of JSON object entries into Go
`map[string]vehicleInfo` entries. -/
def unmarshalVehicleInfoEntries : List (String × Json) → Except Unit (List (String × vehicleInfo))
  | [] => .ok []
  | (k, j) :: rest =>
    match unmarshalVehicleInfo j, unmarshalVehicleInfoEntries rest with
    | .ok vi, .ok tail => .ok ((k, vi) :: tail)
    | _, _ => .error ()

/-- `encoding/json` into a Go `map[string]vehicleInfo` field: missing or
`null` gives a nil map; a JSON object decodes per entry. -/
def unmarshalVehicleInfoMapField : Option Json → Except Unit (List (String × vehicleInfo))
  | none => .ok []
  | some .null => .ok []
  | some (.obj fs) => unmarshalVehicleInfoEntries fs
  | some _ => .error ()

/-- `encoding/json` into the Go struct `fleetStatus`. -/
def unmarshalFleetStatus : Json → Except Unit fleetStatus
  | .null => .ok fleetStatusZero
  | .obj fs =>
    match unmarshalStringSliceField (lookupLast fs "key_paired_vins"),
          unmarshalStringSliceField (lookupLast fs "unpaired_vins"),
          unmarshalVehicleInfoMapField (lookupLast fs "vehicle_info") with
    | .ok kp, .ok up, .ok vi => .ok ⟨kp, up, vi⟩
    | _, _, _ => .error ()
  | _ => .error ()

/-- `encoding/json` into the Go struct `responseWrapper[fleetStatus]`. -/
def unmarshalWrapper : Json → Except Unit (responseWrapper fleetStatus)
  | .null => .ok ⟨fleetStatusZero⟩
  | .obj fs =>
    match lookupLast fs "response" with
    | none => .ok ⟨fleetStatusZero⟩
    | some j => (unmarshalFleetStatus j).map (⟨·⟩)
  | _ => .error ()

/-- `json.Unmarshal(respBytes, &respBody)` at src/tesla.go line 117: a body
that is not valid JSON (`none`) is a parse error, otherwise the JSON value
is decoded into `responseWrapper[fleetStatus]`. -/
def parseFleetStatusBody : Option Json → Except Unit (responseWrapper fleetStatus)
  | none => .error ()
  | some j => unmarshalWrapper j

/-- An outbound HTTP request as handed to the transport. -/
structure HTTPRequest where
  method : String
  url : String
  body : Json
  headers : List (String × String)

/-- An HTTP response as seen by `GetFleetStatus`: the status code, whether
`io.ReadAll(resp.Body)` succeeded, and (when it did) the body, `none`
standing for bytes that are not valid JSON. -/
structure HTTPResponse where
  StatusCode : Nat
  bodyReadOk : Bool
  body : Option Json

/-- The HTTP transport (`*http.Client`): `Do` either fails (network error,
cancellation, timeout) or yields a response. -/
def Transport : Type := HTTPRequest → Except Unit HTTPResponse

/-- A transport that returns the given response for every request. -/
def transportReturning (resp : HTTPResponse) : Transport := fun _ => .ok resp

/-- `DefaultBaseURL` (src/tesla.go line 20). -/
def DefaultBaseURL : String := "https://fleet-api.prd.na.vn.cloud.tesla.com"

/-- A stand-in for `http.DefaultClient`: only its identity matters to the
claims about construction, never its behaviour. -/
def defaultHTTPClient : Transport := fun _ => .error ()

/-- Go struct `Client` (src/tesla.go lines 22 to 25). -/
structure Client where
  hc : Transport
  baseURL : String

/-- Go type `Option func(*Client)` (src/tesla.go line 27), embedded as a
pure update of the client under construction. -/
def ClientOption : Type := Client → Client

/-- `WithHTTPClient` (src/tesla.go lines 29 to 33). -/
def WithHTTPClient (hc : Transport) : ClientOption :=
  fun c => { c with hc := hc }

/-- `WithBaseURL` (src/tesla.go lines 35 to 39). -/
def WithBaseURL (u : String) : ClientOption :=
  fun c => { c with baseURL := u }

/-- `New` (src/tesla.go lines 43 to 54): start from the defaults and apply
each option in sequence. -/
def New (options : List ClientOption) : Client :=
  options.foldl (fun c opt => opt c)
    { hc := defaultHTTPClient, baseURL := DefaultBaseURL }

/-- Go struct `getFleetStatusRequest` (src/tesla.go lines 56 to 58). -/
structure getFleetStatusRequest where
  VINs : List String

/-- `json.Marshal` of `getFleetStatusRequest` (src/tesla.go line 87): the
JSON object with the single key `vins`.  Marshalling this fixed-shape
struct never fails, so the defensive error branch at line 88 vanishes. -/
def marshalGetFleetStatusRequest (r : getFleetStatusRequest) : Json :=
  Json.obj [("vins", Json.arr (r.VINs.map Json.str))]

/-- `baseURL.JoinPath` (src/tesla.go line 92): append a path segment,
avoiding a doubled slash.  Written over the character list so that it
evaluates by kernel reduction. -/
def joinPath (base path : String) : String :=
  if base.data.getLast? = some '/' then
    String.mk (base.data.dropLast ++ ('/' :: path.data))
  else
    String.mk (base.data ++ ('/' :: path.data))

/-- The request built by `GetFleetStatus` (src/tesla.go lines 84 to 100):
POST to `{baseURL}/api/1/vehicles/fleet_status`, body `{"vins": [vin]}`,
bearer-token and content-type headers. -/
def fleetStatusRequest (c : Client) (token vin : String) : HTTPRequest :=
  { method := "POST"
    url := joinPath c.baseURL "api/1/vehicles/fleet_status"
    body := marshalGetFleetStatusRequest ⟨[vin]⟩
    headers := [("Authorization", "Bearer " ++ token),
                ("Content-Type", "application/json")] }

/-- Go struct `FleetStatus` (src/tesla.go lines 135 to 143), the result
returned to the caller. -/
structure FleetStatus where
  KeyPaired : Bool
  VehicleCommandProtocolRequired : Bool
  SafetyScreenStreamingToggleEnabled : Option Bool
  FirmwareVersion : String
  FleetTelemetryVersion : Option String
  TotalNumberOfKeys : Option Int
  DiscountedDeviceData : Bool
deriving Repr, DecidableEq

/-- Modelled from the net/url standard library behaviour behind
`http.NewRequestWithContext` (src/tesla.go line 94): parsing the URL
string fails when it contains an ASCII control character (net/url rejects
control characters in a URL); further malformed shapes that net/url also
rejects are outside this model, so the model's failure set is a subset of
the real one. -/
def urlParseOK (s : String) : Bool :=
  s.data.all (fun c => decide (32 ≤ c.toNat) && decide (c.toNat ≠ 127))

/-- `http.NewRequestWithContext` (src/tesla.go line 94), modelled from the
standard library: it fails when the URL string does not parse, and
otherwise yields a request that carries no headers yet (the headers are
set afterwards, lines 99 to 100). -/
def NewRequestWithContext (method urlStr : String) (body : Json) : Except Unit HTTPRequest :=
  if urlParseOK urlStr then
    .ok { method := method, url := urlStr, body := body, headers := [] }
  else
    .error ()

/-- The distinct error values `GetFleetStatus` can return (src/tesla.go
lines 96, 104, 109, 113, 119). -/
inductive GetFleetStatusError where
  | requestConstructionError
  | transportError
  | bodyReadError
  | statusError (code : Nat)
  | parseError
deriving Repr, DecidableEq

/-- The observable outcome of one call to `GetFleetStatus`: the requests
handed to the transport, the client value after the call, and the Go
return pair `(*FleetStatus, error)`. -/
structure CallResult where
  requests : List HTTPRequest
  client : Client
  ret : Option FleetStatus × Option GetFleetStatusError

/-- Lines 102 to 133 of src/tesla.go: hand the already-built request to
the transport and map the response.  The checks happen in source order:
transport error (line 103), body-read error (line 108), non-200 status
(line 112), parse error (line 118); on success the per-vehicle entry for
the queried VIN is looked up with Go map indexing (line 122) and the
result is flattened (lines 124 to 132). -/
def fleetStatusExchange (c : Client) (vin : String) (req : HTTPRequest) : CallResult :=
  match c.hc req with
  | .error _ => ⟨[req], c, (none, some .transportError)⟩
  | .ok resp =>
    if resp.bodyReadOk = false then
      ⟨[req], c, (none, some .bodyReadError)⟩
    else if resp.StatusCode ≠ 200 then
      ⟨[req], c, (none, some (.statusError resp.StatusCode))⟩
    else
      match parseFleetStatusBody resp.body with
      | .error _ => ⟨[req], c, (none, some .parseError)⟩
      | .ok respBody =>
        let fs := mapIndex respBody.Response.VehicleInfo vin
        ⟨[req], c,
          (some { KeyPaired := respBody.Response.KeyPairedVINs.length == 1
                  VehicleCommandProtocolRequired := fs.VehicleCommandProtocolRequired
                  SafetyScreenStreamingToggleEnabled := fs.SafetyScreenStreamingToggleEnabled
                  FirmwareVersion := fs.FirmwareVersion
                  FleetTelemetryVersion := fs.FleetTelemetryVersion
                  TotalNumberOfKeys := fs.TotalNumberOfKeys
                  DiscountedDeviceData := fs.DiscountedDeviceData },
           none)⟩

/-- `Client.GetFleetStatus` (src/tesla.go lines 83 to 133), in
state-passing style.  Marshalling the fixed-shape request body never
fails (line 88 is defensive only), but `http.NewRequestWithContext`
(line 94) fails when the URL built from the base URL does not parse: that
path returns an error with an empty request trace, before the transport
is ever consulted (line 96).  Otherwise the headers are set (lines 99 to
100) and the exchange of lines 102 to 133 runs. -/
def Client.GetFleetStatus (c : Client) (token vin : String) : CallResult :=
  let reqBytes := marshalGetFleetStatusRequest ⟨[vin]⟩
  let u := joinPath c.baseURL "api/1/vehicles/fleet_status"
  match NewRequestWithContext "POST" u reqBytes with
  | .error _ => ⟨[], c, (none, some .requestConstructionError)⟩
  | .ok req0 =>
    fleetStatusExchange c vin
      { req0 with headers := [("Authorization", "Bearer " ++ token),
                              ("Content-Type", "application/json")] }

/-! ### Helper lemmas shared by the claim theorems -/

theorem getFleetStatus_constructed (c : Client) (token vin : String)
    (hurl : urlParseOK (joinPath c.baseURL "api/1/vehicles/fleet_status") = true) :
    c.GetFleetStatus token vin = fleetStatusExchange c vin (fleetStatusRequest c token vin) := by
  simp only [Client.GetFleetStatus, NewRequestWithContext, hurl, if_true]
  rfl

theorem getFleetStatus_not_constructed (c : Client) (token vin : String)
    (hurl : urlParseOK (joinPath c.baseURL "api/1/vehicles/fleet_status") = false) :
    c.GetFleetStatus token vin = ⟨[], c, (none, some .requestConstructionError)⟩ := by
  simp only [Client.GetFleetStatus, NewRequestWithContext, hurl]
  rfl

/-- The flattened result built on the success path (src/tesla.go lines 122
to 132) from a decoded wrapper and the queried VIN. -/
def flattenResult (w : responseWrapper fleetStatus) (vin : String) : FleetStatus :=
  { KeyPaired := w.Response.KeyPairedVINs.length == 1
    VehicleCommandProtocolRequired := (mapIndex w.Response.VehicleInfo vin).VehicleCommandProtocolRequired
    SafetyScreenStreamingToggleEnabled := (mapIndex w.Response.VehicleInfo vin).SafetyScreenStreamingToggleEnabled
    FirmwareVersion := (mapIndex w.Response.VehicleInfo vin).FirmwareVersion
    FleetTelemetryVersion := (mapIndex w.Response.VehicleInfo vin).FleetTelemetryVersion
    TotalNumberOfKeys := (mapIndex w.Response.VehicleInfo vin).TotalNumberOfKeys
    DiscountedDeviceData := (mapIndex w.Response.VehicleInfo vin).DiscountedDeviceData }

theorem getFleetStatus_success_eq
    (c : Client) (token vin : String) (resp : HTTPResponse)
    (w : responseWrapper fleetStatus)
    (hurl : urlParseOK (joinPath c.baseURL "api/1/vehicles/fleet_status") = true)
    (hdo : c.hc (fleetStatusRequest c token vin) = Except.ok resp)
    (hread : resp.bodyReadOk = true)
    (hstatus : resp.StatusCode = 200)
    (hparse : parseFleetStatusBody resp.body = Except.ok w) :
    c.GetFleetStatus token vin =
      ⟨[fleetStatusRequest c token vin], c, (some (flattenResult w vin), none)⟩ := by
  rw [getFleetStatus_constructed c token vin hurl]
  simp only [fleetStatusExchange]
  rw [hdo]
  simp [hread, hstatus, hparse, flattenResult]

theorem getFleetStatus_ok_inv
    (c : Client) (token vin : String) (resp : HTTPResponse) (r : FleetStatus)
    (hdo : c.hc (fleetStatusRequest c token vin) = Except.ok resp)
    (hok : (c.GetFleetStatus token vin).ret.1 = some r) :
    resp.bodyReadOk = true ∧ resp.StatusCode = 200 ∧
      ∃ w, parseFleetStatusBody resp.body = Except.ok w ∧ r = flattenResult w vin := by
  by_cases hurl : urlParseOK (joinPath c.baseURL "api/1/vehicles/fleet_status") = true
  · rw [getFleetStatus_constructed c token vin hurl] at hok
    simp only [fleetStatusExchange] at hok
    rw [hdo] at hok
    by_cases hb : resp.bodyReadOk = false
    · simp [hb] at hok
    · by_cases hs : resp.StatusCode = 200
      · cases hp : parseFleetStatusBody resp.body with
        | error e => simp [hb, hs, hp] at hok
        | ok w =>
          simp [hb, hs, hp] at hok
          exact ⟨by simpa using hb, hs, w, rfl, by simp [flattenResult, ← hok]⟩
      · simp [hb, hs] at hok
  · rw [getFleetStatus_not_constructed c token vin (by simpa using hurl)] at hok
    simp at hok

theorem fleetStatusExchange_requests_eq (c : Client) (vin : String) (req : HTTPRequest) :
    (fleetStatusExchange c vin req).requests = [req] := by
  simp only [fleetStatusExchange]
  cases h : c.hc req with
  | error e => rfl
  | ok resp =>
    by_cases hb : resp.bodyReadOk = false
    · simp [hb]
    · by_cases hs : resp.StatusCode = 200
      · cases hp : parseFleetStatusBody resp.body <;> simp [hb, hs, hp]
      · simp [hb, hs]

theorem fleetStatusExchange_client_eq (c : Client) (vin : String) (req : HTTPRequest) :
    (fleetStatusExchange c vin req).client = c := by
  simp only [fleetStatusExchange]
  cases h : c.hc req with
  | error e => rfl
  | ok resp =>
    by_cases hb : resp.bodyReadOk = false
    · simp [hb]
    · by_cases hs : resp.StatusCode = 200
      · cases hp : parseFleetStatusBody resp.body <;> simp [hb, hs, hp]
      · simp [hb, hs]

theorem getFleetStatus_client_eq (c : Client) (token vin : String) :
    (c.GetFleetStatus token vin).client = c := by
  by_cases hurl : urlParseOK (joinPath c.baseURL "api/1/vehicles/fleet_status") = true
  · rw [getFleetStatus_constructed c token vin hurl, fleetStatusExchange_client_eq]
  · rw [getFleetStatus_not_constructed c token vin (by simpa using hurl)]

/-- The value a JSON field presents for a nullable boolean: an absent key
and JSON `null` both present nothing. -/
def presentedBool : Option Json → Option Bool
  | some (Json.bool b) => some b
  | _ => none

/-- The value a JSON field presents for a nullable string. -/
def presentedString : Option Json → Option String
  | some (Json.str s) => some s
  | _ => none

/-- The value a JSON field presents for a nullable integer. -/
def presentedInt : Option Json → Option Int
  | some (Json.num n) => some n
  | _ => none

theorem optBoolField_ok (oj : Option Json) (v : Option Bool)
    (h : unmarshalOptBoolField oj = Except.ok v) : v = presentedBool oj := by
  cases oj with
  | none => simp [unmarshalOptBoolField] at h; simp [presentedBool, ← h]
  | some j =>
    cases j <;> simp [unmarshalOptBoolField] at h <;> simp [presentedBool, ← h]

theorem optStringField_ok (oj : Option Json) (v : Option String)
    (h : unmarshalOptStringField oj = Except.ok v) : v = presentedString oj := by
  cases oj with
  | none => simp [unmarshalOptStringField] at h; simp [presentedString, ← h]
  | some j =>
    cases j <;> simp [unmarshalOptStringField] at h <;> simp [presentedString, ← h]

theorem optIntField_ok (oj : Option Json) (v : Option Int)
    (h : unmarshalOptIntField oj = Except.ok v) : v = presentedInt oj := by
  cases oj with
  | none => simp [unmarshalOptIntField] at h; simp [presentedInt, ← h]
  | some j =>
    cases j <;> simp [unmarshalOptIntField] at h <;> simp [presentedInt, ← h]

theorem unmarshalVehicleInfo_obj_fields (fs : List (String × Json)) (vi : vehicleInfo)
    (h : unmarshalVehicleInfo (Json.obj fs) = Except.ok vi) :
    unmarshalBoolField (lookupLast fs "vehicle_command_protocol_required")
      = Except.ok vi.VehicleCommandProtocolRequired ∧
    unmarshalOptBoolField (lookupLast fs "safety_screen_streaming_toggle_enabled")
      = Except.ok vi.SafetyScreenStreamingToggleEnabled ∧
    unmarshalStringField (lookupLast fs "firmware_version")
      = Except.ok vi.FirmwareVersion ∧
    unmarshalOptStringField (lookupLast fs "fleet_telemetry_version")
      = Except.ok vi.FleetTelemetryVersion ∧
    unmarshalOptIntField (lookupLast fs "total_number_of_keys")
      = Except.ok vi.TotalNumberOfKeys ∧
    unmarshalBoolField (lookupLast fs "discounted_device_data")
      = Except.ok vi.DiscountedDeviceData := by
  simp only [unmarshalVehicleInfo] at h
  split at h
  · next a b c d e f ha hb hc hd he hf =>
      cases h
      exact ⟨ha, hb, hc, hd, he, hf⟩
  · simp at h

/-! ### Claim theorems -/

/-- C1: on every successful call, the returned `KeyPaired` field is `true`
exactly when the `key_paired_vins` sequence of the parsed response has
length 1, regardless of whether the queried VIN appears in it. -/
theorem keyPaired_iff_one_key_paired_vin
    (c : Client) (token vin : String) (resp : HTTPResponse)
    (w : responseWrapper fleetStatus) (r : FleetStatus)
    (hdo : c.hc (fleetStatusRequest c token vin) = Except.ok resp)
    (hparse : parseFleetStatusBody resp.body = Except.ok w)
    (hok : (c.GetFleetStatus token vin).ret.1 = some r) :
    r.KeyPaired = true ↔ w.Response.KeyPairedVINs.length = 1 := by
  obtain ⟨-, -, w', hp', hr⟩ := getFleetStatus_ok_inv c token vin resp r hdo hok
  have hw : w = w' := by
    have := hparse.symm.trans hp'
    injection this
  subst hw
  simp [hr, flattenResult]

/-- C2: a 200 response that parses but whose `vehicle_info` mapping lacks
the queried VIN yields no error and a result whose per-vehicle fields are
all zero valued: both booleans false, empty firmware version, the three
optionals absent; only `KeyPaired` is still derived from
`key_paired_vins`. -/
theorem missing_vin_yields_zero_result
    (c : Client) (token vin : String) (resp : HTTPResponse)
    (w : responseWrapper fleetStatus)
    (hurl : urlParseOK (joinPath c.baseURL "api/1/vehicles/fleet_status") = true)
    (hdo : c.hc (fleetStatusRequest c token vin) = Except.ok resp)
    (hread : resp.bodyReadOk = true)
    (hstatus : resp.StatusCode = 200)
    (hparse : parseFleetStatusBody resp.body = Except.ok w)
    (habsent : lookupLast w.Response.VehicleInfo vin = none) :
    ∃ r, (c.GetFleetStatus token vin).ret = (some r, none) ∧
      r.VehicleCommandProtocolRequired = false ∧
      r.SafetyScreenStreamingToggleEnabled = none ∧
      r.FirmwareVersion = "" ∧
      r.FleetTelemetryVersion = none ∧
      r.TotalNumberOfKeys = none ∧
      r.DiscountedDeviceData = false ∧
      r.KeyPaired = (w.Response.KeyPairedVINs.length == 1) := by
  refine ⟨flattenResult w vin, ?_, ?_, ?_, ?_, ?_, ?_, ?_, ?_⟩
  · rw [getFleetStatus_success_eq c token vin resp w hurl hdo hread hstatus hparse]
  all_goals simp [flattenResult, mapIndex, habsent, vehicleInfoZero]

/-- C3 counterexample: a response with status 500 whose body read fails
makes `GetFleetStatus` return the body-read error, which carries no status
code, so a non-200 response does not always produce an error carrying the
numeric status code. -/
theorem status500_body_read_failure_counterexample :
    (Client.GetFleetStatus
        ⟨transportReturning ⟨500, false, none⟩, DefaultBaseURL⟩ "tok" "VIN1").ret
      = (none, some GetFleetStatusError.bodyReadError) ∧
    GetFleetStatusError.bodyReadError ≠ GetFleetStatusError.statusError 500 := by
  constructor
  · rfl
  · decide

/-- C3 amended: a non-200 response whose body read succeeded yields an
error carrying the numeric status code and no result; when the body read
fails, the body-read error is returned instead, still with no result. -/
theorem non200_yields_error_no_result
    (c : Client) (token vin : String) (resp : HTTPResponse)
    (hurl : urlParseOK (joinPath c.baseURL "api/1/vehicles/fleet_status") = true)
    (hdo : c.hc (fleetStatusRequest c token vin) = Except.ok resp)
    (hstatus : resp.StatusCode ≠ 200) :
    (resp.bodyReadOk = true →
      (c.GetFleetStatus token vin).ret
        = (none, some (GetFleetStatusError.statusError resp.StatusCode))) ∧
    (resp.bodyReadOk = false →
      (c.GetFleetStatus token vin).ret
        = (none, some GetFleetStatusError.bodyReadError)) := by
  constructor <;> intro hb <;>
    rw [getFleetStatus_constructed c token vin hurl] <;>
    simp only [fleetStatusExchange] <;> rw [hdo] <;> simp [hb, hstatus]

/-- C5: every call returns exactly one of a result and an error, never
both and never neither. -/
theorem result_xor_error (c : Client) (token vin : String) :
    ((c.GetFleetStatus token vin).ret.1 ≠ none ∧ (c.GetFleetStatus token vin).ret.2 = none) ∨
    ((c.GetFleetStatus token vin).ret.1 = none ∧ (c.GetFleetStatus token vin).ret.2 ≠ none) := by
  by_cases hurl : urlParseOK (joinPath c.baseURL "api/1/vehicles/fleet_status") = true
  · rw [getFleetStatus_constructed c token vin hurl]
    simp only [fleetStatusExchange]
    cases h : c.hc (fleetStatusRequest c token vin) with
    | error e => simp
    | ok resp =>
      by_cases hb : resp.bodyReadOk = false
      · simp [hb]
      · by_cases hs : resp.StatusCode = 200
        · cases hp : parseFleetStatusBody resp.body <;> simp [hb, hs, hp]
        · simp [hb, hs]
  · rw [getFleetStatus_not_constructed c token vin (by simpa using hurl)]
    simp

/-- C9: the body read is checked before the status code: a failed body
read returns the body-read error even when the status is non-200, and the
status-code error is returned only when the body was read successfully
(and then carries that response status). -/
theorem body_read_checked_before_status
    (c : Client) (token vin : String) (resp : HTTPResponse)
    (hurl : urlParseOK (joinPath c.baseURL "api/1/vehicles/fleet_status") = true)
    (hdo : c.hc (fleetStatusRequest c token vin) = Except.ok resp) :
    (resp.bodyReadOk = false →
      (c.GetFleetStatus token vin).ret = (none, some GetFleetStatusError.bodyReadError)) ∧
    (∀ code : Nat,
      (c.GetFleetStatus token vin).ret.2 = some (GetFleetStatusError.statusError code) →
      resp.bodyReadOk = true ∧ code = resp.StatusCode) := by
  constructor
  · intro hb
    rw [getFleetStatus_constructed c token vin hurl]
    simp only [fleetStatusExchange]
    rw [hdo]
    simp [hb]
  · intro code hcode
    rw [getFleetStatus_constructed c token vin hurl] at hcode
    simp only [fleetStatusExchange] at hcode
    rw [hdo] at hcode
    by_cases hb : resp.bodyReadOk = false
    · simp [hb] at hcode
    · by_cases hs : resp.StatusCode = 200
      · cases hp : parseFleetStatusBody resp.body <;> simp [hb, hs, hp] at hcode
      · simp [hb, hs] at hcode
        exact ⟨by simpa using hb, hcode.symm⟩

/-- C10: the returned value depends only on the length of
`key_paired_vins` and on the `vehicle_info` entry for the queried VIN: two
successfully parsed 200 responses agreeing on those two produce equal
return pairs, whatever their `unpaired_vins` or other `vehicle_info`
entries are. -/
theorem result_depends_only_on_length_and_vin_entry
    (b1 b2 token1 token2 vin : String) (resp1 resp2 : HTTPResponse)
    (w1 w2 : responseWrapper fleetStatus)
    (hurl1 : urlParseOK (joinPath b1 "api/1/vehicles/fleet_status") = true)
    (hurl2 : urlParseOK (joinPath b2 "api/1/vehicles/fleet_status") = true)
    (hr1 : resp1.bodyReadOk = true) (hs1 : resp1.StatusCode = 200)
    (hp1 : parseFleetStatusBody resp1.body = Except.ok w1)
    (hr2 : resp2.bodyReadOk = true) (hs2 : resp2.StatusCode = 200)
    (hp2 : parseFleetStatusBody resp2.body = Except.ok w2)
    (hlen : w1.Response.KeyPairedVINs.length = w2.Response.KeyPairedVINs.length)
    (hentry : lookupLast w1.Response.VehicleInfo vin = lookupLast w2.Response.VehicleInfo vin) :
    (Client.GetFleetStatus ⟨transportReturning resp1, b1⟩ token1 vin).ret =
    (Client.GetFleetStatus ⟨transportReturning resp2, b2⟩ token2 vin).ret := by
  rw [getFleetStatus_success_eq _ token1 vin resp1 w1 hurl1 rfl hr1 hs1 hp1,
      getFleetStatus_success_eq _ token2 vin resp2 w2 hurl2 rfl hr2 hs2 hp2]
  simp [flattenResult, mapIndex, hlen, hentry]

/-- C4: when the queried VIN is present in the parsed `vehicle_info`
mapping, every field of the returned result equals the corresponding
decoded field exactly; and decoding a `vehicle_info` JSON object keeps
each optional field present or absent exactly as the JSON presents it
(JSON `null` and a missing key both decode to absent, with no defaulting)
and each scalar field equal to the JSON value. -/
theorem result_fields_match_json :
    (∀ (c : Client) (token vin : String) (resp : HTTPResponse)
        (w : responseWrapper fleetStatus) (r : FleetStatus) (fi : vehicleInfo),
      c.hc (fleetStatusRequest c token vin) = Except.ok resp →
      (c.GetFleetStatus token vin).ret.1 = some r →
      parseFleetStatusBody resp.body = Except.ok w →
      lookupLast w.Response.VehicleInfo vin = some fi →
      r.VehicleCommandProtocolRequired = fi.VehicleCommandProtocolRequired ∧
      r.SafetyScreenStreamingToggleEnabled = fi.SafetyScreenStreamingToggleEnabled ∧
      r.FirmwareVersion = fi.FirmwareVersion ∧
      r.FleetTelemetryVersion = fi.FleetTelemetryVersion ∧
      r.TotalNumberOfKeys = fi.TotalNumberOfKeys ∧
      r.DiscountedDeviceData = fi.DiscountedDeviceData) ∧
    (∀ (fs : List (String × Json)) (vi : vehicleInfo),
      unmarshalVehicleInfo (Json.obj fs) = Except.ok vi →
      (vi.SafetyScreenStreamingToggleEnabled
          = presentedBool (lookupLast fs "safety_screen_streaming_toggle_enabled") ∧
       vi.FleetTelemetryVersion
          = presentedString (lookupLast fs "fleet_telemetry_version") ∧
       vi.TotalNumberOfKeys
          = presentedInt (lookupLast fs "total_number_of_keys")) ∧
      (∀ b : Bool,
        lookupLast fs "vehicle_command_protocol_required" = some (Json.bool b) →
        vi.VehicleCommandProtocolRequired = b) ∧
      (∀ s : String,
        lookupLast fs "firmware_version" = some (Json.str s) →
        vi.FirmwareVersion = s) ∧
      (∀ b : Bool,
        lookupLast fs "discounted_device_data" = some (Json.bool b) →
        vi.DiscountedDeviceData = b)) := by
  constructor
  · intro c token vin resp w r fi hdo hok hparse hfound
    obtain ⟨-, -, w', hp', hr⟩ := getFleetStatus_ok_inv c token vin resp r hdo hok
    have hw : w = w' := by
      have := hparse.symm.trans hp'
      injection this
    subst hw
    subst hr
    simp [flattenResult, mapIndex, hfound]
  · intro fs vi h
    obtain ⟨ha, hb, hc, hd, he, hf⟩ := unmarshalVehicleInfo_obj_fields fs vi h
    refine ⟨⟨(optBoolField_ok _ _ hb).symm ▸ rfl, ?_, ?_⟩, ?_, ?_, ?_⟩
    · exact optStringField_ok _ _ hd
    · exact optIntField_ok _ _ he
    · intro b hfield
      rw [hfield] at ha
      simpa [unmarshalBoolField] using ha.symm
    · intro s hfield
      rw [hfield] at hc
      simpa [unmarshalStringField] using hc.symm
    · intro b hfield
      rw [hfield] at hf
      simpa [unmarshalBoolField] using hf.symm

/-- C6: `New` starts from the hardcoded defaults (default transport and
production base URL), applies the options in sequence with a later option
overriding an earlier one for the same field, and always returns the
resulting client (it is a total function that validates nothing). -/
theorem new_defaults_and_sequencing :
    (New []).hc = defaultHTTPClient ∧
    (New []).baseURL = DefaultBaseURL ∧
    (∀ options : List ClientOption,
      New options = options.foldl (fun c opt => opt c) (New [])) ∧
    (∀ (options : List ClientOption) (u : String),
      (New (options ++ [WithBaseURL u])).baseURL = u) ∧
    (∀ (options : List ClientOption) (t : Transport),
      (New (options ++ [WithHTTPClient t])).hc = t) := by
  refine ⟨rfl, rfl, fun options => rfl, fun options u => ?_, fun options t => ?_⟩
  · simp [New, List.foldl_append, WithBaseURL]
  · simp [New, List.foldl_append, WithHTTPClient]

/-- C7 counterexample: with a base URL containing a control character,
request construction fails (src/tesla.go lines 94 to 97), so no request
at all is handed to the transport — even though the transport stands
ready to return a well-formed 200 response — and an error is returned;
hence not every call hands exactly one request to the transport. -/
theorem control_char_url_no_request_counterexample :
    (Client.GetFleetStatus
        ⟨transportReturning ⟨200, true, some Json.null⟩, "https://fleet\napi.example.com"⟩
        "tok" "VIN1").requests = [] ∧
    (Client.GetFleetStatus
        ⟨transportReturning ⟨200, true, some Json.null⟩, "https://fleet\napi.example.com"⟩
        "tok" "VIN1").ret = (none, some GetFleetStatusError.requestConstructionError) :=
  ⟨rfl, rfl⟩

/-- C7 amended: whenever the request URL is successfully constructed (as
on every well-formed base URL), exactly one request is handed to the
transport: a POST to `{baseURL}/api/1/vehicles/fleet_status` with body
`{"vins": [vin]}` and the bearer-authorization and JSON content-type
headers; when request construction fails, no request reaches the
transport and the construction error is returned with no result. -/
theorem single_post_request (c : Client) (token vin : String) :
    (urlParseOK (joinPath c.baseURL "api/1/vehicles/fleet_status") = true →
      (c.GetFleetStatus token vin).requests =
        [{ method := "POST"
           url := joinPath c.baseURL "api/1/vehicles/fleet_status"
           body := Json.obj [("vins", Json.arr [Json.str vin])]
           headers := [("Authorization", "Bearer " ++ token),
                       ("Content-Type", "application/json")] }]) ∧
    (urlParseOK (joinPath c.baseURL "api/1/vehicles/fleet_status") = false →
      (c.GetFleetStatus token vin).requests = [] ∧
      (c.GetFleetStatus token vin).ret
        = (none, some GetFleetStatusError.requestConstructionError)) := by
  constructor
  · intro hurl
    rw [getFleetStatus_constructed c token vin hurl, fleetStatusExchange_requests_eq]
    rfl
  · intro hurl
    rw [getFleetStatus_not_constructed c token vin hurl]
    exact ⟨rfl, rfl⟩

/-- C8: a call leaves the client configuration unchanged: the transport
and base URL fields are the same before and after the call, on every
path. -/
theorem client_config_unchanged (c : Client) (token vin : String) :
    (c.GetFleetStatus token vin).client.hc = c.hc ∧
    (c.GetFleetStatus token vin).client.baseURL = c.baseURL := by
  rw [getFleetStatus_client_eq]
  exact ⟨rfl, rfl⟩

/-! ### Concrete sample inputs for the witnesses -/

/-- A sample VIN, as in the spec end-to-end scenario. -/
def sampleVIN : String := "5YJ3E1EA1JF000001"

/-- A second VIN. -/
def sampleVIN2 : String := "5YJ3E1EA1JF000002"

/-- The per-vehicle JSON object of the spec end-to-end scenario. -/
def sampleVehicleInfoJson : Json :=
  Json.obj [("vehicle_command_protocol_required", Json.bool true),
            ("safety_screen_streaming_toggle_enabled", Json.null),
            ("firmware_version", Json.str "2024.8.1"),
            ("fleet_telemetry_version", Json.null),
            ("total_number_of_keys", Json.num 3),
            ("discounted_device_data", Json.bool false)]

/-- The decoded form of `sampleVehicleInfoJson`. -/
def sampleVehicleInfo : vehicleInfo :=
  { VehicleCommandProtocolRequired := true
    SafetyScreenStreamingToggleEnabled := none
    FirmwareVersion := "2024.8.1"
    FleetTelemetryVersion := none
    TotalNumberOfKeys := some 3
    DiscountedDeviceData := false }

/-- The response body of the spec end-to-end scenario. -/
def sampleBodyJson : Json :=
  Json.obj [("response", Json.obj
    [("key_paired_vins", Json.arr [Json.str sampleVIN]),
     ("unpaired_vins", Json.arr []),
     ("vehicle_info", Json.obj [(sampleVIN, sampleVehicleInfoJson)])])]

/-- A 200 response carrying `sampleBodyJson`. -/
def sampleResponse : HTTPResponse :=
  { StatusCode := 200, bodyReadOk := true, body := some sampleBodyJson }

/-- A client whose transport always returns `sampleResponse`. -/
def sampleClient : Client :=
  { hc := transportReturning sampleResponse, baseURL := DefaultBaseURL }

/-- The decoded form of `sampleBodyJson`. -/
def sampleWrapper : responseWrapper fleetStatus :=
  ⟨{ KeyPairedVINs := [sampleVIN], UnpairedVINs := [],
     VehicleInfo := [(sampleVIN, sampleVehicleInfo)] }⟩

/-- The result of the spec end-to-end scenario. -/
def sampleResult : FleetStatus :=
  { KeyPaired := true
    VehicleCommandProtocolRequired := true
    SafetyScreenStreamingToggleEnabled := none
    FirmwareVersion := "2024.8.1"
    FleetTelemetryVersion := none
    TotalNumberOfKeys := some 3
    DiscountedDeviceData := false }

/-- A 200 response whose `vehicle_info` object is empty. -/
def sampleResponseNoInfo : HTTPResponse :=
  { StatusCode := 200, bodyReadOk := true,
    body := some (Json.obj [("response", Json.obj
      [("key_paired_vins", Json.arr [Json.str sampleVIN]),
       ("unpaired_vins", Json.arr []),
       ("vehicle_info", Json.obj [])])]) }

/-- A client whose transport always returns `sampleResponseNoInfo`. -/
def sampleClientNoInfo : Client :=
  { hc := transportReturning sampleResponseNoInfo, baseURL := DefaultBaseURL }

/-- The decoded form of the body of `sampleResponseNoInfo`. -/
def sampleWrapperNoInfo : responseWrapper fleetStatus :=
  ⟨{ KeyPairedVINs := [sampleVIN], UnpairedVINs := [], VehicleInfo := [] }⟩

/-- A 200 response that agrees with `sampleResponse` on the length of
`key_paired_vins` (though naming a different VIN) and on the entry for
`sampleVIN`, while differing in `unpaired_vins` and holding an extra
`vehicle_info` entry. -/
def sampleResponse2 : HTTPResponse :=
  { StatusCode := 200, bodyReadOk := true,
    body := some (Json.obj [("response", Json.obj
      [("key_paired_vins", Json.arr [Json.str sampleVIN2]),
       ("unpaired_vins", Json.arr [Json.str sampleVIN2]),
       ("vehicle_info", Json.obj [(sampleVIN2, Json.null),
                                  (sampleVIN, sampleVehicleInfoJson)])])]) }

/-- The decoded form of the body of `sampleResponse2`. -/
def sampleWrapper2 : responseWrapper fleetStatus :=
  ⟨{ KeyPairedVINs := [sampleVIN2], UnpairedVINs := [sampleVIN2],
     VehicleInfo := [(sampleVIN2, vehicleInfoZero), (sampleVIN, sampleVehicleInfo)] }⟩

/-- A response with status 404 whose body read fails. -/
def sampleResponse404NoBody : HTTPResponse :=
  { StatusCode := 404, bodyReadOk := false, body := none }

/-- A response with status 401 whose body read succeeds. -/
def sampleResponse401 : HTTPResponse :=
  { StatusCode := 401, bodyReadOk := true, body := none }

/-! ### Witnesses -/

/-- C1 witness at the spec end-to-end scenario. -/
theorem keyPaired_iff_one_key_paired_vin_witness :
    sampleResult.KeyPaired = true ↔ sampleWrapper.Response.KeyPairedVINs.length = 1 :=
  keyPaired_iff_one_key_paired_vin sampleClient "tok" sampleVIN sampleResponse
    sampleWrapper sampleResult rfl rfl rfl

/-- C2 witness: the empty `vehicle_info` object yields the zero-valued
per-vehicle result with no error. -/
theorem missing_vin_yields_zero_result_witness :
    ∃ r, (sampleClientNoInfo.GetFleetStatus "tok" sampleVIN).ret = (some r, none) ∧
      r.VehicleCommandProtocolRequired = false ∧
      r.SafetyScreenStreamingToggleEnabled = none ∧
      r.FirmwareVersion = "" ∧
      r.FleetTelemetryVersion = none ∧
      r.TotalNumberOfKeys = none ∧
      r.DiscountedDeviceData = false ∧
      r.KeyPaired = (sampleWrapperNoInfo.Response.KeyPairedVINs.length == 1) :=
  missing_vin_yields_zero_result sampleClientNoInfo "tok" sampleVIN
    sampleResponseNoInfo sampleWrapperNoInfo rfl rfl rfl rfl rfl rfl

/-- C3 witness: a 401 response with a readable body yields the status
error 401 and no result. -/
theorem non200_yields_error_no_result_witness :
    (sampleResponse401.bodyReadOk = true →
      (Client.GetFleetStatus ⟨transportReturning sampleResponse401, DefaultBaseURL⟩
          "tok" "VIN1").ret
        = (none, some (GetFleetStatusError.statusError sampleResponse401.StatusCode))) ∧
    (sampleResponse401.bodyReadOk = false →
      (Client.GetFleetStatus ⟨transportReturning sampleResponse401, DefaultBaseURL⟩
          "tok" "VIN1").ret
        = (none, some GetFleetStatusError.bodyReadError)) :=
  non200_yields_error_no_result ⟨transportReturning sampleResponse401, DefaultBaseURL⟩
    "tok" "VIN1" sampleResponse401 rfl rfl (by decide)

/-- C9 witness: a 404 response whose body read fails yields the body-read
error, not the status error. -/
theorem body_read_checked_before_status_witness :
    (sampleResponse404NoBody.bodyReadOk = false →
      (Client.GetFleetStatus ⟨transportReturning sampleResponse404NoBody, DefaultBaseURL⟩
          "tok" "VIN1").ret = (none, some GetFleetStatusError.bodyReadError)) ∧
    (∀ code : Nat,
      (Client.GetFleetStatus ⟨transportReturning sampleResponse404NoBody, DefaultBaseURL⟩
          "tok" "VIN1").ret.2 = some (GetFleetStatusError.statusError code) →
      sampleResponse404NoBody.bodyReadOk = true ∧ code = sampleResponse404NoBody.StatusCode) :=
  body_read_checked_before_status
    ⟨transportReturning sampleResponse404NoBody, DefaultBaseURL⟩ "tok" "VIN1"
    sampleResponse404NoBody rfl rfl

/-- C10 witness: `sampleResponse` and `sampleResponse2` differ in
`unpaired_vins`, in the named key-paired VIN and in an extra
`vehicle_info` entry, yet produce the same return pair. -/
theorem result_depends_only_on_length_and_vin_entry_witness :
    (Client.GetFleetStatus ⟨transportReturning sampleResponse, DefaultBaseURL⟩
        "tokA" sampleVIN).ret =
    (Client.GetFleetStatus ⟨transportReturning sampleResponse2, DefaultBaseURL⟩
        "tokB" sampleVIN).ret :=
  result_depends_only_on_length_and_vin_entry DefaultBaseURL DefaultBaseURL
    "tokA" "tokB" sampleVIN sampleResponse sampleResponse2 sampleWrapper sampleWrapper2
    rfl rfl rfl rfl rfl rfl rfl rfl rfl rfl

end TeslaGo
